import Mathlib

/-!
Verification development for the car_wash_app repository: a shallow embedding
of the wash-advisor scoring logic, the advisor and weather CRUD layers, the
weather provider client parsing, and the relevant HTTP endpoint cores, with
theorems settling the specification claims.

Modelling conventions:
* Python floats are idealized as rationals.  The one transcendental,
  `math.exp`, is modelled by an uninterpreted function parameter
  `pyExp : ℚ → ℚ`; theorems that depend on a numeric fact about the real
  exponential take that fact as a hypothesis (the real exponential satisfies
  every such hypothesis, e.g. `exp (-1/2) ≈ 0.6065 ≥ 1/2`).
* Calendar dates are integers (day numbers); datetimes are rationals counting
  hours.  The calendar date of a datetime `t` is `⌊t / 24⌋`, so midnight of
  the day containing `t` is `24 * ⌊t / 24⌋`.
* A database table is a list of rows; SQLAlchemy queries become filters,
  sorts, takes and finds over that list.  SQL leaves the order of ties
  unspecified; the embedding uses a stable sort, and no theorem depends on
  the tie order.
-/

/-! ## Wash-advisor configuration (wash_advisor_service/app/config.py) -/

def MIN_PRECIPITATION_THRESHOLD : ℚ := 3/10

def IDEAL_WASH_TEMPERATURE_MIN : ℚ := 5

def IDEAL_WASH_TEMPERATURE_MAX : ℚ := 25

def WIND_SPEED_THRESHOLD : ℚ := 30

def CACHE_RECOMMENDATION_HOURS : ℚ := 24

def WEIGHT_PRECIPITATION : ℚ := 4/10

def WEIGHT_TEMPERATURE : ℚ := 3/10

def WEIGHT_WIND : ℚ := 2/10

def WEIGHT_HUMIDITY : ℚ := 1/10

/-! ## Scoring sub-components (WashAdvisorLogic._calculate_score, advisor.py 87-166)

Each block of the Python function becomes one definition; the if-chains are
transcribed literally. -/

/-- The precip_score block: 100.0 when the probability is absent, otherwise
100 * exp(-5 * precip_prob). -/
def precipScore (pyExp : ℚ → ℚ) : Option ℚ → ℚ
  | none => 100
  | some p => 100 * pyExp (-5 * p)

/-- The temp_score block: default 50.0, then the banded if-chain over the
temperature in Celsius. -/
def tempScore : Option ℚ → ℚ
  | none => 50
  | some temp =>
    if 15 ≤ temp ∧ temp ≤ 22 then 100
    else if (10 ≤ temp ∧ temp < 15) ∨ (22 < temp ∧ temp ≤ 25) then 80
    else if (5 ≤ temp ∧ temp < 10) ∨ (25 < temp ∧ temp ≤ 30) then 60
    else if temp < 5 then max 0 (60 - (5 - temp) * 10)
    else max 0 (60 - (temp - 30) * 10)

/-- The wind_score block: default 100.0, then the banded if-chain over the
wind speed in km/h. -/
def windScore : Option ℚ → ℚ
  | none => 100
  | some w =>
    if w ≤ 15 then 100
    else if w ≤ 25 then 80
    else if w ≤ 35 then 50
    else 20

/-- The humidity_score block: default 80.0, then the banded if-chain over the
relative humidity percentage. -/
def humidityScore : Option ℚ → ℚ
  | none => 80
  | some h =>
    if 40 ≤ h ∧ h ≤ 60 then 100
    else if (30 ≤ h ∧ h < 40) ∨ (60 < h ∧ h ≤ 70) then 80
    else if (20 ≤ h ∧ h < 30) ∨ (70 < h ∧ h ≤ 80) then 60
    else 40

/-- The penalty accumulator: starts at 0, adds 40 for expected rain, 20 for a
non-optimal temperature, 20 for unacceptable wind, in that order. -/
def scorePenalty (isRainExpected isTemperatureOptimal isWindAcceptable : Bool) : ℚ :=
  ((0 + (if isRainExpected then 40 else 0))
    + (if !isTemperatureOptimal then 20 else 0))
    + (if !isWindAcceptable then 20 else 0)

/-- WashAdvisorLogic._calculate_score: the weighted total of the four
sub-scores minus the penalty, bounded into [0, 100] by max(0, min(100, ·)). -/
def calculateScore (pyExp : ℚ → ℚ)
    (temp precipProb windSpeed humidity : Option ℚ)
    (isRainExpected isTemperatureOptimal isWindAcceptable : Bool) : ℚ :=
  let totalScore :=
    (precipScore pyExp precipProb * WEIGHT_PRECIPITATION
      + tempScore temp * WEIGHT_TEMPERATURE
      + windScore windSpeed * WEIGHT_WIND
      + humidityScore humidity * WEIGHT_HUMIDITY)
    - scorePenalty isRainExpected isTemperatureOptimal isWindAcceptable
  max 0 (min 100 totalScore)

/-! ## Spec-side score definition (claim C1, refinement)

A second definition written from the words of the specification (spec.md
§4.10): the weighted sum of the banded sub-scores minus a penalty of
40 if rain is expected plus 20 if the temperature is not optimal plus 20 if
the wind is not acceptable, clamped to [0, 100]. -/

/-- Spec §4.10: precipitation sub-score, default 100 if probability absent,
otherwise 100 × e^(−5 × probability). -/
def specPrecipSub (pyExp : ℚ → ℚ) : Option ℚ → ℚ
  | none => 100
  | some p => 100 * pyExp (-5 * p)

/-- Spec §4.10: temperature sub-score, default 50 if absent; 100 for [15,22];
80 for [10,15) or (22,25]; 60 for [5,10) or (25,30]; below 5:
max(0, 60 − (5 − t) × 10); above 30: max(0, 60 − (t − 30) × 10). -/
def specTempSub : Option ℚ → ℚ
  | none => 50
  | some t =>
    if 15 ≤ t ∧ t ≤ 22 then 100
    else if (10 ≤ t ∧ t < 15) ∨ (22 < t ∧ t ≤ 25) then 80
    else if (5 ≤ t ∧ t < 10) ∨ (25 < t ∧ t ≤ 30) then 60
    else if t < 5 then max 0 (60 - (5 - t) * 10)
    else max 0 (60 - (t - 30) * 10)

/-- Spec §4.10: wind sub-score, default 100 if absent; 100 for ≤15; 80 for
≤25; 50 for ≤35; else 20. -/
def specWindSub : Option ℚ → ℚ
  | none => 100
  | some w =>
    if w ≤ 15 then 100
    else if w ≤ 25 then 80
    else if w ≤ 35 then 50
    else 20

/-- Spec §4.10: humidity sub-score, default 80 if absent; 100 for [40,60];
80 for [30,40) or (60,70]; 60 for [20,30) or (70,80]; else 40. -/
def specHumiditySub : Option ℚ → ℚ
  | none => 80
  | some h =>
    if 40 ≤ h ∧ h ≤ 60 then 100
    else if (30 ≤ h ∧ h < 40) ∨ (60 < h ∧ h ≤ 70) then 80
    else if (20 ≤ h ∧ h < 30) ∨ (70 < h ∧ h ≤ 80) then 60
    else 40

/-- The per-day score as the specification and claim C1 word it: the clamp to
[0,100] of (precip sub-score × 0.4 + temperature sub-score × 0.3 + wind
sub-score × 0.2 + humidity sub-score × 0.1) minus a penalty of 40 if rain is
expected plus 20 if the temperature is not optimal plus 20 if the wind is not
acceptable. -/
def specWashScore (pyExp : ℚ → ℚ)
    (temp precipProb windSpeed humidity : Option ℚ)
    (isRainExpected isTemperatureOptimal isWindAcceptable : Bool) : ℚ :=
  max 0 (min 100
    ((specPrecipSub pyExp precipProb * (4/10)
        + specTempSub temp * (3/10)
        + specWindSub windSpeed * (2/10)
        + specHumiditySub humidity * (1/10))
      - ((if isRainExpected then 40 else 0)
          + (if isTemperatureOptimal then 0 else 20)
          + (if isWindAcceptable then 0 else 20))))

/-! ## Analyzed day and reason generation (advisor.py 13-85 and 168-235) -/

/-- The per-day weather dict handed to analyze_weather_day by the advisor
endpoint (a forecast day from the weather service response).  The date is
an integer day number (the pydantic string-to-date coercion is abstracted
away). -/
structure WeatherDayData where
  date : ℤ
  temperature_avg : Option ℚ
  precipitation_probability : Option ℚ
  precipitation_amount : Option ℚ
  wind_speed : Option ℚ
  humidity : Option ℚ
  weather_description : String
deriving DecidableEq, Repr, Inhabited

/-- The user-context metrics dict produced by CRUD.calculate_user_context.
In Python is_interval_optimal may be True, False or None; only True is
truthy. -/
structure UserContextMetrics where
  days_since_last_wash : Option ℤ
  is_interval_optimal : Option Bool
deriving DecidableEq, Repr, Inhabited

/-- The dict returned by analyze_weather_day (advisor.py 72-85). -/
structure AnalyzedDay where
  date : ℤ
  temperature : Option ℚ
  precipitation_probability : Option ℚ
  precipitation_amount : Option ℚ
  wind_speed : Option ℚ
  humidity : Option ℚ
  weather_description : String
  is_rain_expected : Bool
  is_temperature_optimal : Bool
  is_wind_acceptable : Bool
  score : ℚ
  reason : String
deriving DecidableEq, Repr, Inhabited

/-- Models the Python format spec :.0f used in the reason strings (rounding
to the nearest integer; the round-half-to-even detail of CPython float
formatting is abstracted to Mathlib round, and no claim depends on these
digits). -/
def fmtF0 (q : ℚ) : String := toString (round q)

/-- Lower-casing as Python str.lower does on the reason text, which only
contains ASCII and Russian letters.  Lean Char.toLower is ASCII-only, so the
Cyrillic range А-Я (and Ё) is mapped explicitly. -/
def pyLowerChar (c : Char) : Char :=
  if 'A' ≤ c ∧ c ≤ 'Z' then Char.ofNat (c.toNat + 32)
  else if 'А' ≤ c ∧ c ≤ 'Я' then Char.ofNat (c.toNat + 32)
  else if c = 'Ё' then 'ё'
  else c

def pyLower (s : String) : String := String.map pyLowerChar s

/-- WashAdvisorLogic._generate_reason (advisor.py 168-235): collect the
clause list in source order (rain, temperature extremity, wind, user-context
interval), then phrase the result by score band. -/
def generateReason (isRainExpected isTemperatureOptimal isWindAcceptable : Bool)
    (precipProb temp windSpeed : Option ℚ) (score : ℚ)
    (userContext : Option UserContextMetrics) : String :=
  let reasons : List String :=
    (if isRainExpected then
      match precipProb with
      | some p => ["Высокая вероятность дождя (" ++ fmtF0 (p * 100) ++ "%)"]
      | none => []
    else [])
    ++ (if isTemperatureOptimal then []
      else
        match temp with
        | some t =>
          if t < 5 then ["Низкая температура (" ++ fmtF0 t ++ "°C)"]
          else if t > 25 then ["Высокая температура (" ++ fmtF0 t ++ "°C)"]
          else []
        | none => [])
    ++ (if isWindAcceptable then []
      else
        match windSpeed with
        | some w => ["Сильный ветер (" ++ fmtF0 w ++ " км/ч)"]
        | none => [])
    ++ (match userContext with
      | none => []
      | some c =>
        match c.days_since_last_wash with
        | none => []
        | some d =>
          if c.is_interval_optimal = some true then
            ["Оптимальный интервал (" ++ toString d ++ " дней с последней мойки)"]
          else if d < 7 then
            ["Недавняя мойка (" ++ toString d ++ " дней назад)"]
          else [])
  if 80 ≤ score then
    if reasons = [] then "Отличные условия для мойки"
    else "Хорошие условия, но " ++ pyLower (String.intercalate ", " reasons)
  else if 60 ≤ score then
    if reasons ≠ [] then
      "Удовлетворительные условия, однако " ++ pyLower (String.intercalate ", " reasons)
    else "Удовлетворительные условия для мойки"
  else if 40 ≤ score then
    if reasons ≠ [] then "Неблагоприятные условия: " ++ String.intercalate ", " reasons
    else "Неблагоприятные условия"
  else
    if reasons ≠ [] then "Очень плохие условия: " ++ String.intercalate ", " reasons
    else "Очень плохие условия"

/-- WashAdvisorLogic.analyze_weather_day (advisor.py 13-85): factor flags,
base score, optional user-context adjustment, reason, and the result dict.
user_context = none models both None and the empty (falsy) metrics dict. -/
def analyzeWeatherDay (pyExp : ℚ → ℚ) (weatherData : WeatherDayData)
    (userContext : Option UserContextMetrics) : AnalyzedDay :=
  let temp := weatherData.temperature_avg
  let precipProb := weatherData.precipitation_probability
  let precipAmount := weatherData.precipitation_amount
  let windSpeed := weatherData.wind_speed
  let humidity := weatherData.humidity
  let weatherDesc := weatherData.weather_description
  let isRainExpected :=
    match precipProb with
    | some p => decide (p > MIN_PRECIPITATION_THRESHOLD)
    | none => false
  let isTemperatureOptimal :=
    match temp with
    | some t => decide (IDEAL_WASH_TEMPERATURE_MIN ≤ t ∧ t ≤ IDEAL_WASH_TEMPERATURE_MAX)
    | none => false
  let isWindAcceptable :=
    match windSpeed with
    | some w => decide (w ≤ WIND_SPEED_THRESHOLD)
    | none => false
  let score := calculateScore pyExp temp precipProb windSpeed humidity
    isRainExpected isTemperatureOptimal isWindAcceptable
  let score :=
    match userContext with
    | none => score
    | some c =>
      if c.days_since_last_wash.isSome ∧ c.is_interval_optimal = some true then
        min 100 (score + 10)
      else
        match c.days_since_last_wash with
        | some d => if d < 7 then max 0 (score - 20) else score
        | none => score
  let reason := generateReason isRainExpected isTemperatureOptimal isWindAcceptable
    precipProb temp windSpeed score userContext
  { date := weatherData.date
    temperature := temp
    precipitation_probability := precipProb
    precipitation_amount := precipAmount
    wind_speed := windSpeed
    humidity := humidity
    weather_description := weatherDesc
    is_rain_expected := isRainExpected
    is_temperature_optimal := isTemperatureOptimal
    is_wind_acceptable := isWindAcceptable
    score := score
    reason := reason }

/-! ## Best-day selection (WashAdvisorLogic.find_best_wash_day, advisor.py 237-283) -/

/-- The factors dict attached to a WashRecommendationDay. -/
structure Factors where
  is_rain_expected : Bool
  is_temperature_optimal : Bool
  is_wind_acceptable : Bool
  humidity : Option ℚ
deriving DecidableEq, Repr, Inhabited

/-- The WashRecommendationDay pydantic schema (wash_advisor_service
schemas.py). -/
structure WashRecommendationDay where
  date : ℤ
  is_recommended : Bool
  score : ℚ
  temperature : Option ℚ
  precipitation_probability : Option ℚ
  wind_speed : Option ℚ
  reason : String
  factors : Factors
deriving DecidableEq, Repr, Inhabited

/-- The sort key of find_best_wash_day: x[score] if x[score] else 0
(Python float truthiness: a 0 score is falsy). -/
def bestDaySortKey (d : AnalyzedDay) : ℚ := if d.score ≠ 0 then d.score else 0

/-- The descending-by-key order the Python sorted(..., reverse=True) call
realizes: a before b when the key of b is at most the key of a. -/
def bestDayOrder (a b : AnalyzedDay) : Prop := bestDaySortKey b ≤ bestDaySortKey a

instance : DecidableRel bestDayOrder := fun a b =>
  inferInstanceAs (Decidable (bestDaySortKey b ≤ bestDaySortKey a))

/-- Building the returned WashRecommendationDay from the chosen best day
(advisor.py 269-283), with the Python truthiness defaults spelled out:
is_recommended = score >= 60 if score else False, score = score or 0,
reason = reason or "". -/
def mkBestRecommendationDay (bestDay : AnalyzedDay) : WashRecommendationDay :=
  { date := bestDay.date
    is_recommended := if bestDay.score ≠ 0 then decide (bestDay.score ≥ 60) else false
    score := if bestDay.score ≠ 0 then bestDay.score else 0
    temperature := bestDay.temperature
    precipitation_probability := bestDay.precipitation_probability
    wind_speed := bestDay.wind_speed
    reason := if bestDay.reason ≠ "" then bestDay.reason else ""
    factors :=
      { is_rain_expected := bestDay.is_rain_expected
        is_temperature_optimal := bestDay.is_temperature_optimal
        is_wind_acceptable := bestDay.is_wind_acceptable
        humidity := bestDay.humidity } }

/-- WashAdvisorLogic.find_best_wash_day: None on an empty input; otherwise
filter to the acceptable days (truthy score and score >= 60), falling back to
all days when none qualify, stable-sort descending by score and return the
top entry.  Python sorted is a stable sort, here insertionSort. -/
def findBestWashDay (analyzedDays : List AnalyzedDay) : Option WashRecommendationDay :=
  if analyzedDays = [] then none
  else
    -- min_acceptable_score = 60.0
    let acceptableDays := analyzedDays.filter fun d => decide (d.score ≠ 0 ∧ d.score ≥ 60)
    let pool := if acceptableDays = [] then analyzedDays else acceptableDays
    let sortedDays := List.insertionSort bestDayOrder pool
    some (mkBestRecommendationDay sortedDays.headI)

/-! ## Advisor CRUD: cached recommendation (wash_advisor_service/app/crud.py 113-150) -/

/-- A wash_recommendations row (wash_advisor_service models.py), restricted
to the columns the modelled operations read.  created_at counts hours; the
score column is nullable in the schema but always written from an analysis
score, so it is carried as a plain rational. -/
structure WashRecommendation where
  user_id : String
  location : String
  recommendation_date : ℤ
  temperature : Option ℚ
  precipitation_probability : Option ℚ
  precipitation_amount : Option ℚ
  wind_speed : Option ℚ
  humidity : Option ℚ
  score : ℚ
  is_recommended : Bool
  reason : Option String
  is_rain_expected : Bool
  is_temperature_optimal : Bool
  is_wind_acceptable : Bool
  created_at : ℚ
deriving DecidableEq, Repr, Inhabited

/-- The WHERE clause of CRUD.get_cached_recommendation: same user and
location, created within the cache window, and flagged recommended. -/
def recQualifies (userId location : String) (now : ℚ) (r : WashRecommendation) : Prop :=
  r.user_id = userId ∧ r.location = location
    ∧ now - CACHE_RECOMMENDATION_HOURS ≤ r.created_at
    ∧ r.is_recommended = true

instance (userId location : String) (now : ℚ) :
    DecidablePred (recQualifies userId location now) := fun r =>
  inferInstanceAs (Decidable (_ ∧ _ ∧ _ ∧ _))

/-- The ORDER BY created_at DESC relation of the cached-recommendation
query. -/
def recCreatedDesc (a b : WashRecommendation) : Prop := b.created_at ≤ a.created_at

instance : DecidableRel recCreatedDesc := fun a b =>
  inferInstanceAs (Decidable (b.created_at ≤ a.created_at))

/-- CRUD.get_cached_recommendation: filter the table by user, location,
created_at >= now - CACHE_RECOMMENDATION_HOURS and is_recommended == True,
order by created_at descending, and take the single top row if any.  The
days argument is accepted and ignored, as in the source. -/
def getCachedRecommendation (db : List WashRecommendation)
    (userId location : String) (days : ℤ) (now : ℚ) : Option WashRecommendation :=
  let matching := db.filter fun r => decide (recQualifies userId location now r)
  let ordered := List.insertionSort recCreatedDesc matching
  ordered.head?

/-! ## Advisor endpoint, cache-hit branch (wash_advisor_service/app/main.py 280-300) -/

/-- The WashRecommendationDay built from a cached recommendation row
(main.py 283-297), with reason = cached_rec.reason or "". -/
def buildCachedDay (cachedRec : WashRecommendation) : WashRecommendationDay :=
  { date := cachedRec.recommendation_date
    is_recommended := cachedRec.is_recommended
    score := cachedRec.score
    temperature := cachedRec.temperature
    precipitation_probability := cachedRec.precipitation_probability
    wind_speed := cachedRec.wind_speed
    reason :=
      match cachedRec.reason with
      | some r => if r ≠ "" then r else ""
      | none => ""
    factors :=
      { is_rain_expected := cachedRec.is_rain_expected
        is_temperature_optimal := cachedRec.is_temperature_optimal
        is_wind_acceptable := cachedRec.is_wind_acceptable
        humidity := cachedRec.humidity } }

/-- The (best_day, all_days) pair the cache-hit branch of the recommendation
endpoint puts into the response (main.py 299-300). -/
def cacheHitResponse (cachedRec : WashRecommendation) :
    Option WashRecommendationDay × List WashRecommendationDay :=
  let cachedDay := buildCachedDay cachedRec
  (if cachedRec.is_recommended then some cachedDay else none, [cachedDay])

/-! ## Claim C1 -/

lemma precipScore_eq_spec (pyExp : ℚ → ℚ) (p : Option ℚ) :
    precipScore pyExp p = specPrecipSub pyExp p := by
  cases p <;> rfl

lemma tempScore_eq_spec (t : Option ℚ) : tempScore t = specTempSub t := by
  cases t <;> rfl

lemma windScore_eq_spec (w : Option ℚ) : windScore w = specWindSub w := by
  cases w <;> rfl

lemma humidityScore_eq_spec (h : Option ℚ) : humidityScore h = specHumiditySub h := by
  cases h <;> rfl

lemma scorePenalty_eq (a b c : Bool) :
    scorePenalty a b c
      = (if a then 40 else 0) + (if b then 0 else 20) + (if c then 0 else 20) := by
  cases a <;> cases b <;> cases c <;> norm_num [scorePenalty]

/-- C1: for every input to the per-day score calculation, _calculate_score
returns exactly the clamp to [0,100] of the weighted sum (weights
0.4/0.3/0.2/0.1) of the banded sub-scores of spec §4.10 (defaults
100/50/100/80 on absent inputs) minus the additive penalty 40/20/20 for the
three factor flags, and in particular the result always lies in [0,100]. -/
theorem C1_calculate_score_matches_spec (pyExp : ℚ → ℚ)
    (temp precipProb windSpeed humidity : Option ℚ)
    (isRainExpected isTemperatureOptimal isWindAcceptable : Bool) :
    calculateScore pyExp temp precipProb windSpeed humidity
        isRainExpected isTemperatureOptimal isWindAcceptable
      = specWashScore pyExp temp precipProb windSpeed humidity
        isRainExpected isTemperatureOptimal isWindAcceptable
    ∧ 0 ≤ calculateScore pyExp temp precipProb windSpeed humidity
        isRainExpected isTemperatureOptimal isWindAcceptable
    ∧ calculateScore pyExp temp precipProb windSpeed humidity
        isRainExpected isTemperatureOptimal isWindAcceptable ≤ 100 := by
  refine ⟨?_, ?_, ?_⟩
  · simp only [calculateScore, specWashScore, WEIGHT_PRECIPITATION, WEIGHT_TEMPERATURE,
      WEIGHT_WIND, WEIGHT_HUMIDITY, precipScore_eq_spec, tempScore_eq_spec,
      windScore_eq_spec, humidityScore_eq_spec, scorePenalty_eq]
  · exact le_max_left 0 _
  · exact max_le (by norm_num) (min_le_left _ _)

/-! ## Claim C2 -/

instance : IsTotal AnalyzedDay bestDayOrder := ⟨fun a b => le_total _ _⟩

instance : IsTrans AnalyzedDay bestDayOrder :=
  ⟨fun _ _ _ h1 h2 => le_trans h2 h1⟩

lemma bestDaySortKey_eq_score (d : AnalyzedDay) : bestDaySortKey d = d.score := by
  by_cases h : d.score = 0 <;> simp [bestDaySortKey, h]

/-- The day set the best day is chosen from, as claim C2 words it: the days
scoring at least 60, or all days when no day scores at least 60. -/
def bestDayPool (analyzedDays : List AnalyzedDay) : List AnalyzedDay :=
  if analyzedDays.filter (fun d => decide (d.score ≥ 60)) = [] then analyzedDays
  else analyzedDays.filter (fun d => decide (d.score ≥ 60))

lemma filter_acceptable_eq (analyzedDays : List AnalyzedDay) :
    analyzedDays.filter (fun d => decide (d.score ≠ 0 ∧ d.score ≥ 60))
      = analyzedDays.filter (fun d => decide (d.score ≥ 60)) := by
  apply List.filter_congr
  intro d _
  simp only [decide_eq_decide]
  constructor
  · exact fun h => h.2
  · intro h
    refine ⟨fun h0 => ?_, h⟩
    rw [h0] at h
    norm_num at h

/-- C2: on a non-empty list of analyzed days, find_best_wash_day returns the
recommendation built from a day of the pool (days scoring at least 60, or
all days when that subset is empty) whose score is maximal in the pool, and
the returned day carries its own score and is_recommended = (score >= 60). -/
theorem C2_find_best_wash_day (analyzedDays : List AnalyzedDay)
    (hne : analyzedDays ≠ []) :
    ∃ d ∈ bestDayPool analyzedDays,
      findBestWashDay analyzedDays = some (mkBestRecommendationDay d)
      ∧ (∀ d2 ∈ bestDayPool analyzedDays, d2.score ≤ d.score)
      ∧ (mkBestRecommendationDay d).score = d.score
      ∧ (mkBestRecommendationDay d).is_recommended = decide (d.score ≥ 60) := by
  have hfb : findBestWashDay analyzedDays
      = some (mkBestRecommendationDay
          (List.insertionSort bestDayOrder (bestDayPool analyzedDays)).headI) := by
    unfold findBestWashDay bestDayPool
    rw [if_neg hne]
    dsimp only
    rw [filter_acceptable_eq]
  have hpoolne : bestDayPool analyzedDays ≠ [] := by
    by_cases h : analyzedDays.filter (fun d => decide (d.score ≥ 60)) = []
    · simpa [bestDayPool, h] using hne
    · simpa [bestDayPool, h] using h
  have hsortne : List.insertionSort bestDayOrder (bestDayPool analyzedDays) ≠ [] := by
    intro h
    apply hpoolne
    have hp := List.perm_insertionSort bestDayOrder (bestDayPool analyzedDays)
    rw [h] at hp
    exact hp.symm.eq_nil
  obtain ⟨a, t, hat⟩ := List.exists_cons_of_ne_nil hsortne
  have hsorted : List.Sorted bestDayOrder
      (List.insertionSort bestDayOrder (bestDayPool analyzedDays)) :=
    List.sorted_insertionSort bestDayOrder _
  refine ⟨a, ?_, ?_, ?_, ?_, ?_⟩
  · have : a ∈ List.insertionSort bestDayOrder (bestDayPool analyzedDays) := by
      rw [hat]; exact List.mem_cons_self a t
    exact (List.mem_insertionSort bestDayOrder).mp this
  · rw [hfb, hat]
    rfl
  · intro d2 hd2
    have hd2s : d2 ∈ List.insertionSort bestDayOrder (bestDayPool analyzedDays) :=
      (List.mem_insertionSort bestDayOrder).mpr hd2
    rw [hat] at hd2s
    rcases List.mem_cons.mp hd2s with h | h
    · rw [h]
    · have := List.rel_of_sorted_cons (hat ▸ hsorted) d2 h
      rw [bestDayOrder, bestDaySortKey_eq_score, bestDaySortKey_eq_score] at this
      exact this
  · by_cases h : a.score = 0 <;> simp [mkBestRecommendationDay, h]
  · by_cases h : a.score = 0
    · simp [mkBestRecommendationDay, h]
    · simp [mkBestRecommendationDay, h]

/-- Sample analyzed day scoring 45 for exercising the best-day selection. -/
def c2Day45 : AnalyzedDay :=
  { date := 1
    temperature := some 20
    precipitation_probability := some (1/2)
    precipitation_amount := some 0
    wind_speed := some 10
    humidity := some 50
    weather_description := "Дождь"
    is_rain_expected := true
    is_temperature_optimal := true
    is_wind_acceptable := true
    score := 45
    reason := "Неблагоприятные условия" }

/-- Sample analyzed day scoring 30 for exercising the best-day selection. -/
def c2Day30 : AnalyzedDay :=
  { date := 2
    temperature := some 2
    precipitation_probability := some (7/10)
    precipitation_amount := some 1
    wind_speed := some 20
    humidity := some 85
    weather_description := "Снег"
    is_rain_expected := true
    is_temperature_optimal := false
    is_wind_acceptable := true
    score := 30
    reason := "Очень плохие условия" }

/-- Witness for C2 at the concrete pair of days scoring 45 and 30 (both
below 60): the theorem applies, and the selection returns the 45-scoring
day with is_recommended = false. -/
theorem C2_find_best_wash_day_witness :
    [c2Day45, c2Day30] ≠ []
    ∧ (∃ d ∈ bestDayPool [c2Day45, c2Day30],
        findBestWashDay [c2Day45, c2Day30] = some (mkBestRecommendationDay d)
        ∧ (∀ d2 ∈ bestDayPool [c2Day45, c2Day30], d2.score ≤ d.score)
        ∧ (mkBestRecommendationDay d).score = d.score
        ∧ (mkBestRecommendationDay d).is_recommended = decide (d.score ≥ 60))
    ∧ findBestWashDay [c2Day45, c2Day30] = some (mkBestRecommendationDay c2Day45)
    ∧ (mkBestRecommendationDay c2Day45).score = 45
    ∧ (mkBestRecommendationDay c2Day45).is_recommended = false :=
  ⟨by decide, C2_find_best_wash_day [c2Day45, c2Day30] (by decide),
    by
      unfold findBestWashDay
      rw [if_neg (by decide : ¬([c2Day45, c2Day30] : List AnalyzedDay) = [])]
      dsimp only
      norm_num [c2Day45, c2Day30, List.filter, bestDayOrder, bestDaySortKey],
    by norm_num [mkBestRecommendationDay, c2Day45],
    by norm_num [mkBestRecommendationDay, c2Day45]⟩

/-! ## Claim C3 -/

/-- The ideal day of claim C3: 20°C, precipitation probability 0.1, wind
10 km/h, humidity 50%. -/
def c3IdealDay : WeatherDayData :=
  { date := 0
    temperature_avg := some 20
    precipitation_probability := some (1/10)
    precipitation_amount := some 0
    wind_speed := some 10
    humidity := some 50
    weather_description := "Ясно" }

lemma calculateScore_ideal_ge_80 (pyExp : ℚ → ℚ) (hexp : 1/2 ≤ pyExp (-(1/2))) :
    80 ≤ calculateScore pyExp (some 20) (some (1/10)) (some 10) (some 50)
      false true true := by
  unfold calculateScore
  dsimp only
  rw [le_max_iff]
  right
  rw [le_min_iff]
  refine ⟨by norm_num, ?_⟩
  have h1 : precipScore pyExp (some (1/10)) = 100 * pyExp (-(1/2)) := by
    show 100 * pyExp (-5 * (1/10)) = _
    norm_num
  rw [h1]
  norm_num [tempScore, windScore, humidityScore, scorePenalty, WEIGHT_PRECIPITATION,
    WEIGHT_TEMPERATURE, WEIGHT_WIND, WEIGHT_HUMIDITY]
  nlinarith [hexp]

lemma analyzeWeatherDay_ideal_eq (pyExp : ℚ → ℚ) :
    analyzeWeatherDay pyExp c3IdealDay none =
      { date := 0
        temperature := some 20
        precipitation_probability := some (1/10)
        precipitation_amount := some 0
        wind_speed := some 10
        humidity := some 50
        weather_description := "Ясно"
        is_rain_expected := false
        is_temperature_optimal := true
        is_wind_acceptable := true
        score := calculateScore pyExp (some 20) (some (1/10)) (some 10) (some 50)
          false true true
        reason := generateReason false true true (some (1/10)) (some 20) (some 10)
          (calculateScore pyExp (some 20) (some (1/10)) (some 10) (some 50)
            false true true) none } := by
  unfold analyzeWeatherDay c3IdealDay
  dsimp only
  norm_num [MIN_PRECIPITATION_THRESHOLD, IDEAL_WASH_TEMPERATURE_MIN,
    IDEAL_WASH_TEMPERATURE_MAX, WIND_SPEED_THRESHOLD]

/-- C3: on the ideal day (20°C, probability 0.1, wind 10 km/h, humidity 50%,
no user context) the analysis reports no expected rain, optimal temperature
and acceptable wind, a score of at least 80, and the excellent-conditions
reason string.  The hypothesis on pyExp records the fact
exp(-1/2) ≈ 0.6065 ≥ 1/2 about the real exponential it stands for. -/
theorem C3_ideal_day_analysis (pyExp : ℚ → ℚ) (hexp : 1/2 ≤ pyExp (-(1/2))) :
    (analyzeWeatherDay pyExp c3IdealDay none).is_rain_expected = false
    ∧ (analyzeWeatherDay pyExp c3IdealDay none).is_temperature_optimal = true
    ∧ (analyzeWeatherDay pyExp c3IdealDay none).is_wind_acceptable = true
    ∧ 80 ≤ (analyzeWeatherDay pyExp c3IdealDay none).score
    ∧ (analyzeWeatherDay pyExp c3IdealDay none).reason = "Отличные условия для мойки" := by
  have h80 := calculateScore_ideal_ge_80 pyExp hexp
  rw [analyzeWeatherDay_ideal_eq]
  refine ⟨rfl, rfl, rfl, h80, ?_⟩
  unfold generateReason
  dsimp only
  rw [if_pos h80]
  simp

/-- A concrete stand-in for the exponential that satisfies the numeric
hypothesis of the ideal-day theorem (the real exp(-1/2) is about 0.6065). -/
def pyExpSample : ℚ → ℚ := fun _ => 3/5

/-- Witness for C3: the theorem applied at the concrete exponential
stand-in. -/
theorem C3_ideal_day_analysis_witness :
    (1/2 : ℚ) ≤ pyExpSample (-(1/2))
    ∧ ((analyzeWeatherDay pyExpSample c3IdealDay none).is_rain_expected = false
      ∧ (analyzeWeatherDay pyExpSample c3IdealDay none).is_temperature_optimal = true
      ∧ (analyzeWeatherDay pyExpSample c3IdealDay none).is_wind_acceptable = true
      ∧ 80 ≤ (analyzeWeatherDay pyExpSample c3IdealDay none).score
      ∧ (analyzeWeatherDay pyExpSample c3IdealDay none).reason
          = "Отличные условия для мойки") :=
  ⟨by norm_num [pyExpSample], C3_ideal_day_analysis pyExpSample (by norm_num [pyExpSample])⟩

/-! ## Claims C4 and C9 -/

instance : IsTotal WashRecommendation recCreatedDesc := ⟨fun a b => le_total _ _⟩

instance : IsTrans WashRecommendation recCreatedDesc :=
  ⟨fun _ _ _ h1 h2 => le_trans h2 h1⟩

lemma getCachedRecommendation_head (db : List WashRecommendation)
    (userId location : String) (days : ℤ) (now : ℚ) (r : WashRecommendation)
    (h : getCachedRecommendation db userId location days now = some r) :
    r ∈ db ∧ recQualifies userId location now r
      ∧ ∀ r2 ∈ db, recQualifies userId location now r2 →
          r2.created_at ≤ r.created_at := by
  unfold getCachedRecommendation at h
  dsimp only at h
  have hsorted : List.Sorted recCreatedDesc
      (List.insertionSort recCreatedDesc
        (db.filter fun x => decide (recQualifies userId location now x))) :=
    List.sorted_insertionSort recCreatedDesc _
  have hmem_sorted : r ∈ List.insertionSort recCreatedDesc
      (db.filter fun x => decide (recQualifies userId location now x)) :=
    List.mem_of_mem_head? h
  have hmem_filter := (List.mem_insertionSort recCreatedDesc).mp hmem_sorted
  obtain ⟨hdb, hdec⟩ := List.mem_filter.mp hmem_filter
  obtain ⟨t, hht⟩ : ∃ t, List.insertionSort recCreatedDesc
      (db.filter fun x => decide (recQualifies userId location now x)) = r :: t := by
    cases he : List.insertionSort recCreatedDesc
        (db.filter fun x => decide (recQualifies userId location now x)) with
    | nil => rw [he] at h; simp at h
    | cons a t =>
      rw [he, List.head?_cons] at h
      exact ⟨t, by rw [Option.some.injEq] at h; rw [h]⟩
  refine ⟨hdb, of_decide_eq_true hdec, ?_⟩
  intro r2 hr2 hq2
  have hr2f : r2 ∈ db.filter fun x => decide (recQualifies userId location now x) :=
    List.mem_filter.mpr ⟨hr2, decide_eq_true hq2⟩
  have hr2s := (List.mem_insertionSort recCreatedDesc).mpr hr2f
  rw [hht] at hr2s
  rcases List.mem_cons.mp hr2s with heq | hin
  · rw [heq]
  · exact List.rel_of_sorted_cons (hht ▸ hsorted) r2 hin

lemma getCachedRecommendation_none (db : List WashRecommendation)
    (userId location : String) (days : ℤ) (now : ℚ) :
    getCachedRecommendation db userId location days now = none ↔
      ∀ r ∈ db, ¬ recQualifies userId location now r := by
  unfold getCachedRecommendation
  dsimp only
  constructor
  · intro h r hr hq
    have hnil : List.insertionSort recCreatedDesc
        (db.filter fun x => decide (recQualifies userId location now x)) = [] :=
      List.head?_eq_none_iff.mp h
    have hmnil : db.filter (fun x => decide (recQualifies userId location now x)) = [] := by
      have hp := List.perm_insertionSort recCreatedDesc
        (db.filter fun x => decide (recQualifies userId location now x))
      rw [hnil] at hp
      exact hp.symm.eq_nil
    have : r ∈ db.filter fun x => decide (recQualifies userId location now x) :=
      List.mem_filter.mpr ⟨hr, decide_eq_true hq⟩
    rw [hmnil] at this
    exact List.not_mem_nil r this
  · intro hall
    have hmnil : db.filter (fun x => decide (recQualifies userId location now x)) = [] := by
      rw [List.filter_eq_nil]
      intro a ha
      simp only [decide_eq_true_eq]
      exact hall a ha
    rw [hmnil]
    rfl

/-- C4: get_cached_recommendation returns only a row of the store for the
given user and location, created within the 24-hour cache window and flagged
is_recommended (so a non-recommended row is never returned), with maximal
created_at among all such rows; and it returns none exactly when no row of
the store qualifies. -/
theorem C4_get_cached_recommendation (db : List WashRecommendation)
    (userId location : String) (days : ℤ) (now : ℚ) :
    (∀ r, getCachedRecommendation db userId location days now = some r →
      r ∈ db ∧ recQualifies userId location now r
        ∧ ∀ r2 ∈ db, recQualifies userId location now r2 →
            r2.created_at ≤ r.created_at)
    ∧ (getCachedRecommendation db userId location days now = none ↔
        ∀ r ∈ db, ¬ recQualifies userId location now r) :=
  ⟨fun r h => getCachedRecommendation_head db userId location days now r h,
    getCachedRecommendation_none db userId location days now⟩

/-- A stored recommendation row flagged recommended, created at hour 100. -/
def sampleRecRow : WashRecommendation :=
  { user_id := "u1"
    location := "Moscow"
    recommendation_date := 10
    temperature := some 20
    precipitation_probability := some 0
    precipitation_amount := some 0
    wind_speed := some 5
    humidity := some 50
    score := 90
    is_recommended := true
    reason := some "Отличные условия для мойки"
    is_rain_expected := false
    is_temperature_optimal := true
    is_wind_acceptable := true
    created_at := 100 }

/-- A stored recommendation row flagged NOT recommended, created at hour 95
(inside the cache window, so only the is_recommended filter excludes it). -/
def sampleRecRowOld : WashRecommendation :=
  { user_id := "u1"
    location := "Moscow"
    recommendation_date := 9
    temperature := some 2
    precipitation_probability := some 1
    precipitation_amount := some 3
    wind_speed := some 40
    humidity := some 90
    score := 10
    is_recommended := false
    reason := some "Очень плохие условия"
    is_rain_expected := true
    is_temperature_optimal := false
    is_wind_acceptable := false
    created_at := 95 }

/-- Witness for C4: at hour 110 the query over the two sample rows returns
the recommended row, which qualifies and is the most recent qualifying
row (the non-recommended row is skipped despite being in the window). -/
theorem C4_get_cached_recommendation_witness :
    sampleRecRow ∈ [sampleRecRowOld, sampleRecRow]
    ∧ recQualifies "u1" "Moscow" 110 sampleRecRow
    ∧ ∀ r2 ∈ [sampleRecRowOld, sampleRecRow], recQualifies "u1" "Moscow" 110 r2 →
        r2.created_at ≤ sampleRecRow.created_at :=
  (C4_get_cached_recommendation [sampleRecRowOld, sampleRecRow] "u1" "Moscow" 7 110).1
    sampleRecRow
    (by norm_num [getCachedRecommendation, List.filter, recQualifies,
      CACHE_RECOMMENDATION_HOURS, sampleRecRow, sampleRecRowOld, recCreatedDesc])

/-- C9: whenever the recommendation endpoint takes the cache-hit branch, the
response carries exactly one all_days entry, built from the cached row, and
best_day is present and equal to it, because get_cached_recommendation only
returns rows flagged is_recommended. -/
theorem C9_cache_hit_best_day (db : List WashRecommendation)
    (userId location : String) (days : ℤ) (now : ℚ) (cachedRec : WashRecommendation)
    (h : getCachedRecommendation db userId location days now = some cachedRec) :
    cacheHitResponse cachedRec
      = (some (buildCachedDay cachedRec), [buildCachedDay cachedRec]) := by
  have hq := (getCachedRecommendation_head db userId location days now cachedRec h).2.1
  unfold cacheHitResponse
  rw [hq.2.2.2]
  simp

/-- Witness for C9: at the concrete store of the two sample rows the cache
hit returns the recommended row, and the response pair is (some day, one-day
list). -/
theorem C9_cache_hit_best_day_witness :
    cacheHitResponse sampleRecRow
      = (some (buildCachedDay sampleRecRow), [buildCachedDay sampleRecRow]) :=
  C9_cache_hit_best_day [sampleRecRowOld, sampleRecRow] "u1" "Moscow" 7 110 sampleRecRow
    (by norm_num [getCachedRecommendation, List.filter, recQualifies,
      CACHE_RECOMMENDATION_HOURS, sampleRecRow, sampleRecRowOld, recCreatedDesc])

/-! ## Weather service: cached forecast (weather_service/app/crud.py 82-117)

The weather service TTL (config.py CACHE_TTL_HOURS, default 1, overridable
by environment) is passed as an explicit parameter. -/

/-- The calendar date (day number) containing the datetime t, as Python
datetime.date() produces it in the hours-as-rationals model. -/
def tsDate (t : ℚ) : ℤ := ⌊t / 24⌋

/-- A weather_forecasts row (weather_service models.py).  raw_data is an
opaque JSON blob, modelled as an optional string; created_at counts hours. -/
structure WeatherForecastRow where
  location_id : String
  date : ℤ
  temperature_min : Option ℚ
  temperature_max : Option ℚ
  temperature_avg : Option ℚ
  precipitation_probability : Option ℚ
  precipitation_amount : Option ℚ
  weather_code : Option ℤ
  weather_description : Option String
  wind_speed : Option ℚ
  humidity : Option ℚ
  sunrise : Option String
  sunset : Option String
  raw_data : Option String
  forecast_source : String
  is_cached : Bool
  created_at : ℚ
deriving DecidableEq, Repr, Inhabited

/-- The WHERE clause of CRUD.get_cached_forecast.  The source compares the
DateTime column created_at against cache_limit.date(), a calendar date; in
the store that date coerces to midnight of that day, i.e. hour
24 * cacheLimitDate. -/
def forecastQualifies (locationId : String) (cacheLimitDate : ℤ)
    (f : WeatherForecastRow) : Prop :=
  f.location_id = locationId
    ∧ (cacheLimitDate : ℚ) * 24 ≤ f.created_at
    ∧ f.is_cached = true

instance (locationId : String) (cacheLimitDate : ℤ) :
    DecidablePred (forecastQualifies locationId cacheLimitDate) := fun _ =>
  inferInstanceAs (Decidable (_ ∧ _ ∧ _))

/-- The ORDER BY date ASC relation of the cached-forecast query. -/
def forecastDateAsc (a b : WeatherForecastRow) : Prop := a.date ≤ b.date

instance : DecidableRel forecastDateAsc := fun a b =>
  inferInstanceAs (Decidable (a.date ≤ b.date))

instance : IsTotal WeatherForecastRow forecastDateAsc := ⟨fun a b => le_total _ _⟩

instance : IsTrans WeatherForecastRow forecastDateAsc :=
  ⟨fun _ _ _ h1 h2 => le_trans h1 h2⟩

/-- CRUD.get_cached_forecast: cache_limit = now - TTL hours, truncated to a
calendar date; filter the table by location, created_at at or after that
date, and is_cached == True; order by forecast date ascending; take at most
days rows; None when the result is empty. -/
def getCachedForecast (cacheTTLHours : ℚ) (db : List WeatherForecastRow)
    (locationId : String) (days : ℕ) (now : ℚ) : Option (List WeatherForecastRow) :=
  let cacheLimit := now - cacheTTLHours
  let cacheLimitDate := tsDate cacheLimit
  let matching := db.filter fun f => decide (forecastQualifies locationId cacheLimitDate f)
  let ordered := List.insertionSort forecastDateAsc matching
  let forecasts := ordered.take days
  if forecasts = [] then none else some forecasts

/-- A cached forecast row created at hour 10 of day 0 (10:00), well before
11:00 = now - TTL for now = 12:00 and TTL = 1 hour. -/
def staleForecastRow : WeatherForecastRow :=
  { location_id := "L1"
    date := 0
    temperature_min := some 10
    temperature_max := some 22
    temperature_avg := some 16
    precipitation_probability := some 0
    precipitation_amount := some 0
    weather_code := some 1000
    weather_description := some "Sunny"
    wind_speed := some 10
    humidity := some 50
    sunrise := some "08:00 AM"
    sunset := some "04:00 PM"
    raw_data := none
    forecast_source := "weatherapi"
    is_cached := true
    created_at := 10 }

lemma tsDate_eleven : tsDate ((12:ℚ) - 1) = 0 := by
  unfold tsDate
  rw [show ((12:ℚ) - 1) / 24 = 11/24 by norm_num]
  rw [Int.floor_eq_iff]
  constructor <;> norm_num

lemma getCachedForecast_sample_eval :
    getCachedForecast 1 [staleForecastRow] "L1" 10 12 = some [staleForecastRow] := by
  unfold getCachedForecast
  dsimp only
  rw [tsDate_eleven]
  norm_num [forecastQualifies, staleForecastRow, List.filter]

/-- Counterexample for C5 as stated: with the default TTL of 1 hour, at
now = hour 12 the claim demands that a row created at hour 10 — more than
TTL hours ago — be excluded (10 < 12 - 1), yet get_cached_forecast returns
it, because the code truncates the cutoff now - TTL to a calendar date
(crud.py 90-91) and hour 10 lies after midnight of that day. -/
theorem C5_counterexample_stale_row_returned :
    getCachedForecast 1 [staleForecastRow] "L1" 10 12 = some [staleForecastRow]
    ∧ staleForecastRow.created_at < 12 - 1
    ∧ staleForecastRow.is_cached = true :=
  ⟨getCachedForecast_sample_eval, by norm_num [staleForecastRow], rfl⟩

/-- C5 amended: get_cached_forecast returns (up to days of) exactly those
rows for the location whose created_at is at or after MIDNIGHT OF THE
CALENDAR DAY containing (now - TTL hours) — not the instant now - TTL — and
whose is_cached flag is true, ordered by forecast date ascending, and none
when no row qualifies (or days = 0). -/
theorem C5_get_cached_forecast_amended (cacheTTLHours : ℚ)
    (db : List WeatherForecastRow) (locationId : String) (days : ℕ) (now : ℚ) :
    (∀ fs, getCachedForecast cacheTTLHours db locationId days now = some fs →
      fs ≠ []
      ∧ fs.length = min days (db.countP fun f =>
          decide (forecastQualifies locationId (tsDate (now - cacheTTLHours)) f))
      ∧ List.Sorted forecastDateAsc fs
      ∧ (∀ f ∈ fs, f ∈ db
          ∧ forecastQualifies locationId (tsDate (now - cacheTTLHours)) f)
      ∧ ((db.countP fun f =>
            decide (forecastQualifies locationId (tsDate (now - cacheTTLHours)) f)) ≤ days →
          ∀ f ∈ db, forecastQualifies locationId (tsDate (now - cacheTTLHours)) f → f ∈ fs))
    ∧ (getCachedForecast cacheTTLHours db locationId days now = none ↔
        days = 0
        ∨ ∀ f ∈ db, ¬ forecastQualifies locationId (tsDate (now - cacheTTLHours)) f) := by
  have hperm := List.perm_insertionSort forecastDateAsc
    (db.filter fun f => decide (forecastQualifies locationId (tsDate (now - cacheTTLHours)) f))
  have hlen : (List.insertionSort forecastDateAsc
      (db.filter fun f =>
        decide (forecastQualifies locationId (tsDate (now - cacheTTLHours)) f))).length
      = db.countP fun f =>
          decide (forecastQualifies locationId (tsDate (now - cacheTTLHours)) f) := by
    rw [hperm.length_eq, List.countP_eq_length_filter]
  constructor
  · intro fs h
    unfold getCachedForecast at h
    dsimp only at h
    split at h
    · exact absurd h (by simp)
    · next hne =>
      obtain rfl : (List.insertionSort forecastDateAsc
          (db.filter fun f =>
            decide (forecastQualifies locationId (tsDate (now - cacheTTLHours)) f))).take days
          = fs := by
        rw [Option.some.injEq] at h
        exact h
      refine ⟨hne, ?_, ?_, ?_, ?_⟩
      · rw [List.length_take, hlen]
      · exact List.Pairwise.sublist (List.take_sublist _ _)
          (List.sorted_insertionSort forecastDateAsc _)
      · intro f hf
        have hfs := List.mem_of_mem_take hf
        have hff := (List.mem_insertionSort forecastDateAsc).mp hfs
        obtain ⟨hdb, hdec⟩ := List.mem_filter.mp hff
        exact ⟨hdb, of_decide_eq_true hdec⟩
      · intro hcount f hf hq
        have hall : (List.insertionSort forecastDateAsc
            (db.filter fun f =>
              decide (forecastQualifies locationId (tsDate (now - cacheTTLHours)) f))).take days
            = List.insertionSort forecastDateAsc
                (db.filter fun f =>
                  decide (forecastQualifies locationId (tsDate (now - cacheTTLHours)) f)) := by
          apply List.take_of_length_le
          rw [hlen]
          exact hcount
        rw [hall]
        exact (List.mem_insertionSort forecastDateAsc).mpr
          (List.mem_filter.mpr ⟨hf, decide_eq_true hq⟩)
  · unfold getCachedForecast
    dsimp only
    constructor
    · intro h
      split at h
      · next hnil =>
        rcases List.take_eq_nil_iff.mp hnil with hd | hs
        · exact Or.inl hd
        · refine Or.inr fun f hf hq => ?_
          have hmnil : db.filter (fun f =>
              decide (forecastQualifies locationId (tsDate (now - cacheTTLHours)) f)) = [] := by
            have hp := hperm
            rw [hs] at hp
            exact (hp.symm).eq_nil
          have : f ∈ db.filter fun f =>
              decide (forecastQualifies locationId (tsDate (now - cacheTTLHours)) f) :=
            List.mem_filter.mpr ⟨hf, decide_eq_true hq⟩
          rw [hmnil] at this
          exact List.not_mem_nil f this
      · exact absurd h (by simp)
    · intro h
      have htake : (List.insertionSort forecastDateAsc
          (db.filter fun f =>
            decide (forecastQualifies locationId (tsDate (now - cacheTTLHours)) f))).take days
          = [] := by
        rcases h with hd | hall
        · rw [hd]
          exact List.take_zero _
        · have hmnil : db.filter (fun f =>
              decide (forecastQualifies locationId (tsDate (now - cacheTTLHours)) f)) = [] := by
            rw [List.filter_eq_nil_iff]
            intro a ha
            simp only [decide_eq_true_eq]
            exact hall a ha
          rw [hmnil]
          simp
      rw [htake]
      simp

/-- Witness for the amended C5: the theorem applied at the concrete store,
where the single cached row is returned (day-truncated window), sorted, and
complete. -/
theorem C5_get_cached_forecast_amended_witness :
    [staleForecastRow] ≠ []
    ∧ ([staleForecastRow] : List WeatherForecastRow).length
        = min 10 ([staleForecastRow].countP fun f =>
            decide (forecastQualifies "L1" (tsDate (12 - 1)) f))
    ∧ List.Sorted forecastDateAsc [staleForecastRow]
    ∧ (∀ f ∈ [staleForecastRow], f ∈ [staleForecastRow]
        ∧ forecastQualifies "L1" (tsDate (12 - 1)) f)
    ∧ (([staleForecastRow].countP fun f =>
          decide (forecastQualifies "L1" (tsDate (12 - 1)) f)) ≤ 10 →
        ∀ f ∈ [staleForecastRow], forecastQualifies "L1" (tsDate (12 - 1)) f →
          f ∈ [staleForecastRow]) :=
  (C5_get_cached_forecast_amended 1 [staleForecastRow] "L1" 10 12).1 [staleForecastRow]
    getCachedForecast_sample_eval

/-! ## Weather service: forecast upsert (CRUD.create_forecasts, crud.py 119-197) -/

/-- The date field of an incoming forecast-day dict: either a string (to be
parsed with strptime, format %Y-%m-%d) or an already-parsed date. -/
inductive PyDate where
  | str (s : String)
  | date (d : ℤ)
deriving DecidableEq, Repr

/-- An incoming forecast-day dict (the parsed provider data handed to
create_forecasts). -/
structure ForecastDayData where
  date : PyDate
  temperature_min : Option ℚ
  temperature_max : Option ℚ
  temperature_avg : Option ℚ
  precipitation_probability : Option ℚ
  precipitation_amount : Option ℚ
  weather_code : Option ℤ
  weather_description : Option String
  wind_speed : Option ℚ
  humidity : Option ℚ
  sunrise : Option String
  sunset : Option String
  raw_data : Option String
deriving DecidableEq, Repr

/-- The date-parsing block of create_forecasts (crud.py 131-139): a string
goes through strptime (modelled by the uninterpreted strptimeDate parameter:
some encoded day on success, none when parsing raises), a non-string is used
as-is; none means the day is skipped. -/
def parsePyDate (strptimeDate : String → Option ℤ) : PyDate → Option ℤ
  | .str s => strptimeDate s
  | .date d => some d

/-- The update branch of create_forecasts (crud.py 149-165): overwrite every
weather field of the existing row and mark it cached; location, date,
source and created_at are untouched. -/
def updateRowFromDay (row : WeatherForecastRow) (d : ForecastDayData) : WeatherForecastRow :=
  { row with
    temperature_min := d.temperature_min
    temperature_max := d.temperature_max
    temperature_avg := d.temperature_avg
    precipitation_probability := d.precipitation_probability
    precipitation_amount := d.precipitation_amount
    weather_code := d.weather_code
    weather_description := d.weather_description
    wind_speed := d.wind_speed
    humidity := d.humidity
    sunrise := d.sunrise
    sunset := d.sunset
    raw_data := d.raw_data
    is_cached := true }

/-- The insert branch of create_forecasts (crud.py 166-188). -/
def newRowFromDay (locationId : String) (forecastDate : ℤ) (d : ForecastDayData)
    (source : String) (now : ℚ) : WeatherForecastRow :=
  { location_id := locationId
    date := forecastDate
    temperature_min := d.temperature_min
    temperature_max := d.temperature_max
    temperature_avg := d.temperature_avg
    precipitation_probability := d.precipitation_probability
    precipitation_amount := d.precipitation_amount
    weather_code := d.weather_code
    weather_description := d.weather_description
    wind_speed := d.wind_speed
    humidity := d.humidity
    sunrise := d.sunrise
    sunset := d.sunset
    raw_data := d.raw_data
    forecast_source := source
    is_cached := true
    created_at := now }

/-- One loop iteration of create_forecasts: parse the date (skip the day on
failure), look the (location, date) row up in the session, then update in
place or insert, appending the touched row to the returned list. -/
def createForecastsStep (locationId source : String) (now : ℚ)
    (strptimeDate : String → Option ℤ)
    (acc : List WeatherForecastRow × List WeatherForecastRow)
    (dayData : ForecastDayData) :
    List WeatherForecastRow × List WeatherForecastRow :=
  match parsePyDate strptimeDate dayData.date with
  | none => acc
  | some forecastDate =>
    match acc.1.find? fun r =>
        decide (r.location_id = locationId ∧ r.date = forecastDate) with
    | some existing =>
      let updated := updateRowFromDay existing dayData
      (acc.1.map fun r =>
        if r.location_id = locationId ∧ r.date = forecastDate then updated else r,
       acc.2 ++ [updated])
    | none =>
      let row := newRowFromDay locationId forecastDate dayData source now
      (acc.1 ++ [row], acc.2 ++ [row])

/-- CRUD.create_forecasts: fold the per-day upsert over the incoming days,
returning the final table and the list of created/updated rows.  The
within-call visibility of earlier inserts reflects SQLAlchemy session
autoflush. -/
def createForecasts (strptimeDate : String → Option ℤ) (db : List WeatherForecastRow)
    (locationId : String) (forecastDays : List ForecastDayData)
    (source : String) (now : ℚ) :
    List WeatherForecastRow × List WeatherForecastRow :=
  forecastDays.foldl (createForecastsStep locationId source now strptimeDate) (db, [])

/-- A stored row carries exactly the weather fields of an incoming day and is
marked cached — what "the second call's field values are read back" means. -/
def rowMatchesDay (r : WeatherForecastRow) (d : ForecastDayData) : Prop :=
  r.temperature_min = d.temperature_min
    ∧ r.temperature_max = d.temperature_max
    ∧ r.temperature_avg = d.temperature_avg
    ∧ r.precipitation_probability = d.precipitation_probability
    ∧ r.precipitation_amount = d.precipitation_amount
    ∧ r.weather_code = d.weather_code
    ∧ r.weather_description = d.weather_description
    ∧ r.wind_speed = d.wind_speed
    ∧ r.humidity = d.humidity
    ∧ r.sunrise = d.sunrise
    ∧ r.sunset = d.sunset
    ∧ r.raw_data = d.raw_data
    ∧ r.is_cached = true

/-! ## Claim C6 -/

lemma updateRowFromDay_matches (row : WeatherForecastRow) (d : ForecastDayData) :
    rowMatchesDay (updateRowFromDay row d) d := by
  simp [updateRowFromDay, rowMatchesDay]

lemma newRowFromDay_matches (locationId : String) (forecastDate : ℤ)
    (d : ForecastDayData) (source : String) (now : ℚ) :
    rowMatchesDay (newRowFromDay locationId forecastDate d source now) d := by
  simp [newRowFromDay, rowMatchesDay]

lemma countP_map_replaceP {α : Type} (P : α → Prop) [DecidablePred P] (u : α)
    (hu : P u) :
    ∀ l : List α, ((l.map fun x => if P x then u else x).countP fun x => decide (P x))
      = l.countP fun x => decide (P x)
  | [] => rfl
  | a :: t => by
    by_cases h : P a <;>
      simp [List.countP_cons, countP_map_replaceP P u hu t, h, hu]

lemma eq_of_mem_map_replaceP {α : Type} (P : α → Prop) [DecidablePred P] (u : α)
    (l : List α) (r : α) (hr : r ∈ l.map fun x => if P x then u else x) (hP : P r) :
    r = u := by
  obtain ⟨x, hx, heq⟩ := List.mem_map.mp hr
  by_cases h : P x
  · rw [if_pos h] at heq
    exact heq.symm
  · rw [if_neg h] at heq
    rw [heq] at h
    exact absurd hP h

lemma createForecasts_single (strptimeDate : String → Option ℤ)
    (db : List WeatherForecastRow) (locationId source : String) (now : ℚ)
    (d : ForecastDayData) (dt : ℤ)
    (hd : parsePyDate strptimeDate d.date = some dt)
    (hu : (db.countP fun r => decide (r.location_id = locationId ∧ r.date = dt)) ≤ 1) :
    ((createForecasts strptimeDate db locationId [d] source now).1.countP
        fun r => decide (r.location_id = locationId ∧ r.date = dt)) = 1
    ∧ (∀ r ∈ (createForecasts strptimeDate db locationId [d] source now).1,
        r.location_id = locationId → r.date = dt → rowMatchesDay r d)
    ∧ ((db.countP fun r => decide (r.location_id = locationId ∧ r.date = dt)) = 1 →
        (createForecasts strptimeDate db locationId [d] source now).1.length
          = db.length) := by
  have hstep : createForecasts strptimeDate db locationId [d] source now
      = createForecastsStep locationId source now strptimeDate (db, []) d := rfl
  rw [hstep]
  unfold createForecastsStep
  rw [hd]
  dsimp only
  cases hfind : db.find? (fun r => decide (r.location_id = locationId ∧ r.date = dt)) with
  | some e =>
    dsimp only
    have hPe : e.location_id = locationId ∧ e.date = dt := by
      have h := List.find?_some hfind
      simpa using h
    have hmem := List.mem_of_find?_eq_some hfind
    have hcount1 : (db.countP fun r =>
        decide (r.location_id = locationId ∧ r.date = dt)) = 1 := by
      have hpos : 0 < db.countP fun r =>
          decide (r.location_id = locationId ∧ r.date = dt) :=
        List.countP_pos.mpr ⟨e, hmem, by simpa using hPe⟩
      omega
    have hPu : (updateRowFromDay e d).location_id = locationId
        ∧ (updateRowFromDay e d).date = dt := ⟨hPe.1, hPe.2⟩
    refine ⟨?_, ?_, ?_⟩
    · rw [countP_map_replaceP (fun r => r.location_id = locationId ∧ r.date = dt)
        (updateRowFromDay e d) hPu db]
      exact hcount1
    · intro r hr hl hdt
      have heq := eq_of_mem_map_replaceP
        (fun r => r.location_id = locationId ∧ r.date = dt)
        (updateRowFromDay e d) db r hr ⟨hl, hdt⟩
      rw [heq]
      exact updateRowFromDay_matches e d
    · intro _
      simp
  | none =>
    dsimp only
    have hz : (db.countP fun r =>
        decide (r.location_id = locationId ∧ r.date = dt)) = 0 := by
      rw [List.countP_eq_zero]
      intro a ha
      have := List.find?_eq_none.mp hfind a ha
      simpa using this
    refine ⟨?_, ?_, ?_⟩
    · rw [List.countP_append, hz]
      simp [newRowFromDay]
    · intro r hr hl hdt
      rcases List.mem_append.mp hr with hin | hin
      · exfalso
        have := List.find?_eq_none.mp hfind r hin
        simp [hl, hdt] at this
      · have heq : r = newRowFromDay locationId dt d source now := by simpa using hin
        rw [heq]
        exact newRowFromDay_matches locationId dt d source now
    · intro hc
      rw [hz] at hc
      exact absurd hc (by decide)

lemma createForecasts_skip_all (strptimeDate : String → Option ℤ)
    (db : List WeatherForecastRow) (locationId source : String) (now : ℚ) :
    ∀ ds : List ForecastDayData, (∀ d ∈ ds, parsePyDate strptimeDate d.date = none) →
      createForecasts strptimeDate db locationId ds source now = (db, [])
  | [], _ => rfl
  | a :: t, h => by
    unfold createForecasts
    rw [List.foldl_cons]
    have hstep : createForecastsStep locationId source now strptimeDate (db, []) a
        = (db, []) := by
      unfold createForecastsStep
      rw [h a (List.mem_cons_self a t)]
    rw [hstep]
    exact createForecasts_skip_all strptimeDate db locationId source now t
      fun d hd => h d (List.mem_cons_of_mem a hd)

lemma createForecasts_ret_length_aux (strptimeDate : String → Option ℤ)
    (locationId source : String) (now : ℚ) :
    ∀ (ds : List ForecastDayData)
      (acc : List WeatherForecastRow × List WeatherForecastRow),
      ((ds.foldl (createForecastsStep locationId source now strptimeDate) acc).2).length
        = acc.2.length + ds.countP fun d => (parsePyDate strptimeDate d.date).isSome
  | [], acc => by simp
  | a :: t, acc => by
    rw [List.foldl_cons, List.countP_cons]
    cases hp : parsePyDate strptimeDate a.date with
    | none =>
      have hstep : createForecastsStep locationId source now strptimeDate acc a = acc := by
        unfold createForecastsStep
        rw [hp]
      rw [hstep, createForecasts_ret_length_aux strptimeDate locationId source now t acc]
      simp
    | some dt =>
      obtain ⟨x, hx⟩ : ∃ x, (createForecastsStep locationId source now strptimeDate acc a).2
          = acc.2 ++ [x] := by
        unfold createForecastsStep
        rw [hp]
        dsimp only
        cases acc.1.find? (fun r => decide (r.location_id = locationId ∧ r.date = dt)) <;>
          exact ⟨_, rfl⟩
      rw [createForecasts_ret_length_aux strptimeDate locationId source now t _, hx,
        List.length_append]
      simp
      omega

/-- C6: create_forecasts is idempotent on row count for a repeated
(location, date) — given a store with at most one row per that key, a first
call inserts or updates a single row, and a second call for the same key
keeps the table length unchanged, leaves exactly one row for the key, and
every row for the key then carries the second call's field values (and is
marked cached); and for every day list, days whose date cannot be parsed are
skipped: an all-unparsable list leaves the store untouched and returns no
rows, and in general the returned list has exactly one entry per parseable
day. -/
theorem C6_create_forecasts_idempotent (strptimeDate : String → Option ℤ)
    (db : List WeatherForecastRow) (locationId source source2 : String)
    (now now2 : ℚ) (d1 d2 : ForecastDayData) (dt : ℤ)
    (hu : (db.countP fun r => decide (r.location_id = locationId ∧ r.date = dt)) ≤ 1)
    (hd1 : parsePyDate strptimeDate d1.date = some dt)
    (hd2 : parsePyDate strptimeDate d2.date = some dt) :
    ((createForecasts strptimeDate
        (createForecasts strptimeDate db locationId [d1] source now).1
        locationId [d2] source2 now2).1.length
      = (createForecasts strptimeDate db locationId [d1] source now).1.length)
    ∧ ((createForecasts strptimeDate
        (createForecasts strptimeDate db locationId [d1] source now).1
        locationId [d2] source2 now2).1.countP
          fun r => decide (r.location_id = locationId ∧ r.date = dt)) = 1
    ∧ (∀ r ∈ (createForecasts strptimeDate
        (createForecasts strptimeDate db locationId [d1] source now).1
        locationId [d2] source2 now2).1,
        r.location_id = locationId → r.date = dt → rowMatchesDay r d2)
    ∧ (∀ ds : List ForecastDayData,
        (∀ d ∈ ds, parsePyDate strptimeDate d.date = none) →
        createForecasts strptimeDate db locationId ds source now = (db, []))
    ∧ (∀ ds : List ForecastDayData,
        ((createForecasts strptimeDate db locationId ds source now).2).length
          = ds.countP fun d => (parsePyDate strptimeDate d.date).isSome) := by
  have h1 := createForecasts_single strptimeDate db locationId source now d1 dt hd1 hu
  have h2 := createForecasts_single strptimeDate
    (createForecasts strptimeDate db locationId [d1] source now).1
    locationId source2 now2 d2 dt hd2 (le_of_eq h1.1)
  refine ⟨h2.2.2 h1.1, h2.1, h2.2.1, ?_, ?_⟩
  · exact createForecasts_skip_all strptimeDate db locationId source now
  · intro ds
    unfold createForecasts
    rw [createForecasts_ret_length_aux strptimeDate locationId source now ds (db, [])]
    simp

/-- A strptime model that accepts exactly the date string 2024-01-15
(encoded as day 15) and fails on everything else. -/
def strptimeSample : String → Option ℤ :=
  fun s => if s = "2024-01-15" then some 15 else none

/-- First incoming day for the upsert witness. -/
def sampleDayData1 : ForecastDayData :=
  { date := .str "2024-01-15"
    temperature_min := some 1
    temperature_max := some 9
    temperature_avg := some 5
    precipitation_probability := some 0
    precipitation_amount := some 0
    weather_code := some 1000
    weather_description := some "Sunny"
    wind_speed := some 10
    humidity := some 60
    sunrise := some "08:00 AM"
    sunset := some "04:00 PM"
    raw_data := none }

/-- Second incoming day for the same date with different values. -/
def sampleDayData2 : ForecastDayData :=
  { date := .str "2024-01-15"
    temperature_min := some 2
    temperature_max := some 12
    temperature_avg := some 7
    precipitation_probability := some 1
    precipitation_amount := some 4
    weather_code := some 1063
    weather_description := some "Rain"
    wind_speed := some 25
    humidity := some 90
    sunrise := some "07:59 AM"
    sunset := some "04:01 PM"
    raw_data := none }

/-- Witness for C6: the theorem applied with an empty store, the two sample
days for the same date, and the sample strptime model. -/
theorem C6_create_forecasts_idempotent_witness :
    ((createForecasts strptimeSample
        (createForecasts strptimeSample [] "L1" [sampleDayData1] "weatherapi" 0).1
        "L1" [sampleDayData2] "weatherapi" 5).1.length
      = (createForecasts strptimeSample [] "L1" [sampleDayData1] "weatherapi" 0).1.length)
    ∧ ((createForecasts strptimeSample
        (createForecasts strptimeSample [] "L1" [sampleDayData1] "weatherapi" 0).1
        "L1" [sampleDayData2] "weatherapi" 5).1.countP
          fun r => decide (r.location_id = "L1" ∧ r.date = 15)) = 1
    ∧ (∀ r ∈ (createForecasts strptimeSample
        (createForecasts strptimeSample [] "L1" [sampleDayData1] "weatherapi" 0).1
        "L1" [sampleDayData2] "weatherapi" 5).1,
        r.location_id = "L1" → r.date = 15 → rowMatchesDay r sampleDayData2)
    ∧ (∀ ds : List ForecastDayData,
        (∀ d ∈ ds, parsePyDate strptimeSample d.date = none) →
        createForecasts strptimeSample [] "L1" ds "weatherapi" 0 = ([], []))
    ∧ (∀ ds : List ForecastDayData,
        ((createForecasts strptimeSample [] "L1" ds "weatherapi" 0).2).length
          = ds.countP fun d => (parsePyDate strptimeSample d.date).isSome) :=
  C6_create_forecasts_idempotent strptimeSample [] "L1" "weatherapi" "weatherapi" 0 5
    sampleDayData1 sampleDayData2 15
    (by simp)
    (by simp [parsePyDate, strptimeSample, sampleDayData1])
    (by simp [parsePyDate, strptimeSample, sampleDayData2])

/-! ## User service: user creation (user_service/app/crud.py 84-119) -/

/-- A users row (user_service models.py), restricted to the columns
create_user reads and writes.  Dates are day numbers. -/
structure User where
  id : String
  email : String
  username : String
  hashed_password : String
  city : Option String
  country : Option String
  last_wash_date : Option ℤ
  preferred_wash_interval : ℤ
deriving DecidableEq, Repr

/-- The UserCreate registration payload (user_service schemas.py), after
schema validation. -/
structure UserCreate where
  username : String
  email : String
  password : String
  city : Option String
  country : Option String
  preferred_wash_interval : ℤ
deriving DecidableEq, Repr

/-- CRUD.get_user_by_username: first row with the username, if any (the
column is unique, so first-match models scalar_one_or_none on any store
satisfying the constraint). -/
def getUserByUsername (db : List User) (username : String) : Option User :=
  db.find? fun u => u.username = username

/-- CRUD.get_user_by_email. -/
def getUserByEmail (db : List User) (email : String) : Option User :=
  db.find? fun u => u.email = email

/-- CRUD.create_user: reject (none, store unchanged) when the username or
the email is already taken; otherwise persist one new row whose password is
hashed and whose identifier is freshly generated.  bcrypt hashing with a
per-call random salt and uuid4 generation are modelled by the hashPassword
and newId parameters. -/
def createUser (hashPassword : String → String) (newId : String)
    (db : List User) (userData : UserCreate) : Option User × List User :=
  match getUserByUsername db userData.username with
  | some _ => (none, db)
  | none =>
    match getUserByEmail db userData.email with
    | some _ => (none, db)
    | none =>
      let user : User :=
        { id := newId
          email := userData.email
          username := userData.username
          hashed_password := hashPassword userData.password
          city := userData.city
          country := userData.country
          last_wash_date := none
          preferred_wash_interval := userData.preferred_wash_interval }
      (some user, db ++ [user])

/-- C7: create_user returns none and leaves the store untouched whenever the
requested username or email already exists; otherwise it appends exactly one
new row — with the freshly generated identifier and the hashed password —
and returns it. -/
theorem C7_create_user (hashPassword : String → String) (newId : String)
    (db : List User) (userData : UserCreate) :
    (((∃ u ∈ db, u.username = userData.username) ∨ (∃ u ∈ db, u.email = userData.email)) →
      createUser hashPassword newId db userData = (none, db))
    ∧ ((∀ u ∈ db, u.username ≠ userData.username) → (∀ u ∈ db, u.email ≠ userData.email) →
      ∃ newUser : User,
        createUser hashPassword newId db userData = (some newUser, db ++ [newUser])
        ∧ newUser.username = userData.username
        ∧ newUser.email = userData.email
        ∧ newUser.hashed_password = hashPassword userData.password
        ∧ newUser.id = newId) := by
  constructor
  · intro h
    unfold createUser getUserByUsername getUserByEmail
    rcases h with ⟨u, hu, he⟩ | ⟨u, hu, he⟩
    · have : ∃ v, db.find? (fun x => x.username = userData.username) = some v := by
        rw [← Option.isSome_iff_exists, List.find?_isSome]
        exact ⟨u, hu, by simpa using he⟩
      obtain ⟨v, hv⟩ := this
      rw [hv]
    · cases hfu : db.find? (fun x => x.username = userData.username) with
      | some v => rfl
      | none =>
        have : ∃ v, db.find? (fun x => x.email = userData.email) = some v := by
          rw [← Option.isSome_iff_exists, List.find?_isSome]
          exact ⟨u, hu, by simpa using he⟩
        obtain ⟨v, hv⟩ := this
        rw [hv]
  · intro hname hemail
    unfold createUser getUserByUsername getUserByEmail
    have hfu : db.find? (fun x => x.username = userData.username) = none := by
      rw [List.find?_eq_none]
      intro a ha
      simpa using hname a ha
    have hfe : db.find? (fun x => x.email = userData.email) = none := by
      rw [List.find?_eq_none]
      intro a ha
      simpa using hemail a ha
    rw [hfu, hfe]
    exact ⟨_, rfl, rfl, rfl, rfl, rfl⟩

/-- An existing registered user occupying a username and an email. -/
def sampleUser : User :=
  { id := "id-1"
    email := "a@example.com"
    username := "alice"
    hashed_password := "hash-a"
    city := some "Moscow"
    country := some "Russia"
    last_wash_date := none
    preferred_wash_interval := 7 }

/-- A registration payload with a fresh username and email. -/
def sampleUserCreate : UserCreate :=
  { username := "bob"
    email := "b@example.com"
    password := "secret123"
    city := some "Moscow"
    country := some "Russia"
    preferred_wash_interval := 7 }

/-- Witness for C7: with one stored user and a non-conflicting registration,
the theorem applies; the success branch persists exactly one new row with
the hashed password and fresh identifier. -/
theorem C7_create_user_witness :
    (∀ u ∈ [sampleUser], u.username ≠ sampleUserCreate.username)
    ∧ (∀ u ∈ [sampleUser], u.email ≠ sampleUserCreate.email)
    ∧ ∃ newUser : User,
        createUser (fun p => "hashed:" ++ p) "id-2" [sampleUser] sampleUserCreate
          = (some newUser, [sampleUser] ++ [newUser])
        ∧ newUser.username = sampleUserCreate.username
        ∧ newUser.email = sampleUserCreate.email
        ∧ newUser.hashed_password = (fun p => "hashed:" ++ p) sampleUserCreate.password
        ∧ newUser.id = "id-2" :=
  ⟨by decide, by decide,
    (C7_create_user (fun p => "hashed:" ++ p) "id-2" [sampleUser] sampleUserCreate).2
      (by decide) (by decide)⟩

/-! ## Weather client: chance-of-rain normalization
(WeatherAPIClient.parse_forecast_data, weather_client.py 136-148) -/

/-- Decimal digit-string value, as Python float sees the digits. -/
def digitsToNat (cs : List Char) : ℕ :=
  cs.foldl (fun n c => n * 10 + (c.toNat - 48)) 0

/-- Model of Python float(string) on its decimal-literal fragment: optional
surrounding whitespace, optional sign, digits with an optional decimal point
and an optional exponent.  The special forms inf/nan and underscore
separators are outside the model; none models the ValueError the except
clause catches. -/
def parseFloatQ (s : String) : Option ℚ :=
  let trimmed := ((s.toList.dropWhile Char.isWhitespace).reverse.dropWhile
    Char.isWhitespace).reverse
  let signBody : ℚ × List Char :=
    match trimmed with
    | '+' :: rest => (1, rest)
    | '-' :: rest => (-1, rest)
    | _ => (1, trimmed)
  let mantissaSplit := signBody.2.span fun c => !(c == 'e' || c == 'E')
  let intFrac := mantissaSplit.1.span fun c => !(c == '.')
  let fracPart := intFrac.2.drop 1
  if !(intFrac.1.all Char.isDigit) || !(fracPart.all Char.isDigit)
      || (intFrac.1.isEmpty && fracPart.isEmpty) then none
  else
    let mantVal : ℚ := signBody.1 * ((digitsToNat intFrac.1 : ℚ)
      + (digitsToNat fracPart : ℚ) / (10 : ℚ) ^ fracPart.length)
    match mantissaSplit.2 with
    | [] => some mantVal
    | _ :: expBody =>
      let expSplit : ℤ × List Char :=
        match expBody with
        | '+' :: rest => (1, rest)
        | '-' :: rest => (-1, rest)
        | _ => (1, expBody)
      if expSplit.2.isEmpty || !(expSplit.2.all Char.isDigit) then none
      else some (mantVal * (10 : ℚ) ^ (expSplit.1 * (digitsToNat expSplit.2 : ℤ)))

/-- Python str.replace of all percent signs with the empty string. -/
def removePercent (s : String) : String :=
  String.mk (s.toList.filter fun c => !(c == '%'))

/-- The provider's daily_chance_of_rain field: a numeric, a string, or
absent (day_info.get default 0). -/
inductive RainField where
  | num (n : ℚ)
  | str (s : String)
  | absent
deriving DecidableEq, Repr

/-- The chance-of-rain block of parse_forecast_data: default 0 when absent,
strings go through percent-stripping and float parsing with 0 on failure,
then everything is divided by 100 into a 0-1 fraction. -/
def parsePrecipProbability (f : RainField) : ℚ :=
  let chanceOfRain : ℚ :=
    match f with
    | .absent => 0
    | .num n => n
    | .str s =>
      match parseFloatQ (removePercent s) with
      | some x => x
      | none => 0
  chanceOfRain / 100

/-- C8: the normalization maps the string 60 percent to the fraction 0.6, a
numeric percentage n to n/100, any non-parseable string to 0, and an absent
field to 0. -/
theorem C8_parse_chance_of_rain :
    parsePrecipProbability (.str "60%") = 6/10
    ∧ (∀ n : ℚ, parsePrecipProbability (.num n) = n / 100)
    ∧ (∀ s : String, parseFloatQ (removePercent s) = none →
        parsePrecipProbability (.str s) = 0)
    ∧ parsePrecipProbability .absent = 0 := by
  refine ⟨?_, fun n => rfl, fun s h => ?_, ?_⟩
  · have hval : parsePrecipProbability (.str "60%")
        = (1 * (((digitsToNat ['6', '0'] : ℕ) : ℚ)
            + ((digitsToNat ([] : List Char) : ℕ) : ℚ) / (10 : ℚ) ^ (0 : ℕ))) / 100 := rfl
    rw [hval, show digitsToNat ['6', '0'] = 60 from by decide,
      show digitsToNat ([] : List Char) = 0 from rfl]
    norm_num
  · simp only [parsePrecipProbability, h]
    norm_num
  · simp [parsePrecipProbability]

/-- Witness for C8: the string abc does not parse as a float and normalizes
to probability 0. -/
theorem C8_parse_chance_of_rain_witness :
    parseFloatQ (removePercent "abc") = none
    ∧ parsePrecipProbability (.str "abc") = 0 :=
  ⟨rfl, C8_parse_chance_of_rain.2.2.1 "abc" rfl⟩

/-! ## Weather endpoint core (weather_service/app/main.py 112-227) -/

/-- The ForecastResponseDay schema, with the derived is_rainy =
(precipitation probability > 0.6) when a probability is present, else
null (schemas.py validator). -/
structure ForecastResponseDay where
  date : ℤ
  temperature_min : Option ℚ
  temperature_max : Option ℚ
  temperature_avg : Option ℚ
  precipitation_probability : Option ℚ
  precipitation_amount : Option ℚ
  weather_code : Option ℤ
  weather_description : Option String
  wind_speed : Option ℚ
  humidity : Option ℚ
  is_rainy : Option Bool
deriving DecidableEq, Repr

/-- The per-row response conversion of the endpoint (main.py 195-208). -/
def toForecastResponseDay (f : WeatherForecastRow) : ForecastResponseDay :=
  { date := f.date
    temperature_min := f.temperature_min
    temperature_max := f.temperature_max
    temperature_avg := f.temperature_avg
    precipitation_probability := f.precipitation_probability
    precipitation_amount := f.precipitation_amount
    weather_code := f.weather_code
    weather_description := f.weather_description
    wind_speed := f.wind_speed
    humidity := f.humidity
    is_rainy :=
      match f.precipitation_probability with
      | some p => some (decide (p > 6/10))
      | none => none }

/-- The forecast list of a GET /api/weather response (main.py 129-227): a
cache hit requires a found location and at least days cached rows; otherwise
the provider is consulted (404 on failure, modelled as the error value) and
the upserted rows are used; either way the response holds the first days
rows.  The location lookup result, the provider response and the
created-location identifier are inputs; request logging, stale-row purging
and the 503 uninitialized-client guard do not affect the forecast list and
are not modelled. -/
def getWeatherForecastEndpoint (cacheTTLHours : ℚ) (strptimeDate : String → Option ℤ)
    (db : List WeatherForecastRow) (location : Option String) (newLocationId : String)
    (providerDays : Option (List ForecastDayData)) (days : ℕ) (now : ℚ) :
    Except ℕ (List ForecastResponseDay) :=
  let cachedData : Option (List WeatherForecastRow) :=
    match location with
    | some locId =>
      match getCachedForecast cacheTTLHours db locId days now with
      | some cachedForecasts =>
        if days ≤ cachedForecasts.length then some cachedForecasts else none
      | none => none
    | none => none
  match cachedData with
  | some forecastsData => .ok ((forecastsData.take days).map toForecastResponseDay)
  | none =>
    match providerDays with
    | none => .error 404
    | some parsedDays =>
      let locId := match location with | some l => l | none => newLocationId
      let forecastsData :=
        (createForecasts strptimeDate db locId parsedDays "weatherapi" now).2
      .ok ((forecastsData.take days).map toForecastResponseDay)

/-- C10: every successful forecast response contains at most days entries,
and is exactly the conversion of the first days of the underlying row list,
on the cached path and the fresh path alike. -/
theorem C10_forecast_response_truncated (cacheTTLHours : ℚ)
    (strptimeDate : String → Option ℤ) (db : List WeatherForecastRow)
    (location : Option String) (newLocationId : String)
    (providerDays : Option (List ForecastDayData)) (days : ℕ) (now : ℚ) :
    ∀ res, getWeatherForecastEndpoint cacheTTLHours strptimeDate db location
        newLocationId providerDays days now = .ok res →
      res.length ≤ days
      ∧ ∃ rows : List WeatherForecastRow,
          res = (rows.take days).map toForecastResponseDay := by
  intro res h
  unfold getWeatherForecastEndpoint at h
  dsimp only at h
  split at h
  · rw [Except.ok.injEq] at h
    subst h
    refine ⟨?_, _, rfl⟩
    rw [List.length_map, List.length_take]
    exact min_le_left _ _
  · split at h
    · exact absurd h (by simp)
    · rw [Except.ok.injEq] at h
      subst h
      refine ⟨?_, _, rfl⟩
      rw [List.length_map, List.length_take]
      exact min_le_left _ _

/-- Witness for C10: a cache hit with one stored row and days = 1 yields the
one-entry response, which the theorem bounds by days. -/
theorem C10_forecast_response_truncated_witness :
    ([toForecastResponseDay staleForecastRow] : List ForecastResponseDay).length ≤ 1
    ∧ ∃ rows : List WeatherForecastRow,
        [toForecastResponseDay staleForecastRow]
          = (rows.take 1).map toForecastResponseDay :=
  C10_forecast_response_truncated 1 strptimeSample [staleForecastRow] (some "L1")
    "L-new" none 1 12 [toForecastResponseDay staleForecastRow]
    (by
      have he : getCachedForecast 1 [staleForecastRow] "L1" 1 12
          = some [staleForecastRow] := by
        unfold getCachedForecast
        dsimp only
        rw [tsDate_eleven]
        norm_num [forecastQualifies, staleForecastRow, List.filter]
      unfold getWeatherForecastEndpoint
      dsimp only
      rw [he]
      norm_num)
